import Mathlib

/-
Verification of the Franka_selenium repository's UI command driver
(`utils/robot_commands.py`) and network manager (`utils/network_manager.py`)
against its natural-language specification.

The Python code drives a live browser session; the embedding below keeps the
code's control flow exactly and abstracts the browser/OS environment as
explicit oracles (what each element lookup returns, whether a click raised,
what a subprocess invocation produced).  Operations whose externally visible
behaviour matters beyond their boolean result additionally return an
instrumentation trace recording, in order, the interactions they attempted.
-/

/-! ## String helpers

Python's `in` operator on strings is contiguous-substring containment and
`str.lower()` lowercases; we model both on the character list underlying a
`String` (ASCII lowering, which covers every string the code compares). -/

/-- Decides whether the first character list is a prefix of the second. -/
def chPfx : List Char → List Char → Bool
  | [], _ => true
  | _ :: _, [] => false
  | a :: as, b :: bs => (a == b) && chPfx as bs

/-- Decides whether `needle` occurs contiguously inside the second list. -/
def chSub (needle : List Char) : List Char → Bool
  | [] => chPfx needle []
  | c :: rest => chPfx needle (c :: rest) || chSub needle rest

/-- Model of Python `needle in hay` for strings (substring containment). -/
def strContains (hay needle : String) : Bool :=
  chSub needle.data hay.data

/-- ASCII lowercasing of one character. -/
def asciiLower (c : Char) : Char :=
  if 65 ≤ c.toNat ∧ c.toNat ≤ 90 then Char.ofNat (c.toNat + 32) else c

/-- Model of Python `str.lower()` (ASCII fragment). -/
def strLower (s : String) : String :=
  String.mk (s.data.map asciiLower)

/-- A single-quote character, used inside XPath/CSS selector strings. -/
def quo : String := String.singleton (Char.ofNat 39)

/-! ## Locators and elements -/

/-- A Selenium locator: a `(By.<strategy>, selector)` pair. -/
structure Locator where
  strategy : String
  selector : String
deriving DecidableEq, Repr

/-- Abstract handle for a resolved WebDriver element (the driver object is
opaque to the Python code except through its attributes, which are modelled
separately where needed). -/
structure Element where
  eid : Nat
deriving DecidableEq, Repr

/-- Modelled from the spec: `try_multiple_locators` of the browser-session
helper (`robot_interface` / selenium manager module, which is not present
under `src/`): "given an ordered list of candidate locators and a timeout
budget, attempt each locator in turn; return the first element that becomes
present ... if none resolve, return not found (no exception)".  The
environment's answer for each locator is the oracle `find`. -/
def try_multiple_locators {ε : Type} (find : Locator → Option ε) :
    List Locator → Option ε
  | [] => none
  | l :: ls =>
    match find l with
    | some e => some e
    | none => try_multiple_locators find ls

/-! ## Task selection (`select_task_from_list`, robot_commands.py lines 45-75) -/

/-- The two fallback locators for the task list container (lines 49-52). -/
def task_container_locators : List Locator :=
  [⟨"xpath", "/html/body/div[2]/section/section/one-library/div/div[1]/div[2]"⟩,
   ⟨"css selector",
     "one-library div[class*=" ++ quo ++ "div" ++ quo ++ "][class*=" ++ quo ++ "div" ++ quo
       ++ "] div[class*=" ++ quo ++ "div" ++ quo ++ "]"⟩]

/-- Exact-text inner locator `.//span[text()='{task_name}']` (line 60). -/
def exact_task_locator (task_name : String) : Locator :=
  ⟨"xpath", ".//span[text()=" ++ quo ++ task_name ++ quo ++ "]"⟩

/-- Contains-text inner locator `.//*[contains(text(), '{task_name}')]` (line 61). -/
def contains_task_locator (task_name : String) : Locator :=
  ⟨"xpath", ".//*[contains(text(), " ++ quo ++ task_name ++ quo ++ ")]"⟩

/-- The ordered inner locator list of `select_task_from_list` (lines 59-62). -/
def task_locators (task_name : String) : List Locator :=
  [exact_task_locator task_name, contains_task_locator task_name]

/-- Environment oracle for one `select_task_from_list` call: `findPage` is the
driver-level resolution used for the container, `findInContainer` is
`task_container.find_element` (`none` models the raised no-such-element
exception, which the bare `except` of the loop swallows). -/
structure TaskSession where
  findPage : Locator → Option Element
  findInContainer : Locator → Option Element

/-- The inner per-task locator loop (lines 64-72): try each locator; on the
first one whose element is found, click it robustly and return `True`; a
lookup failure falls through to the next locator.  The second component
records which locators were attempted, in order. -/
def select_task_inner (find : Locator → Option Element) :
    List Locator → Bool × List Locator
  | [] => (false, [])
  | l :: ls =>
    match find l with
    | some _ => (true, [l])
    | none =>
      let r := select_task_inner find ls
      (r.1, l :: r.2)

/-- Embedding of `select_task_from_list` (lines 45-75): resolve the container
through the fallback list; if it resolves, run the inner locator loop.  The
trace lists the inner locators attempted (empty when the container is not
found, matching the early `return False`). -/
def select_task_from_list (s : TaskSession) (task_name : String) :
    Bool × List Locator :=
  match try_multiple_locators s.findPage task_container_locators with
  | none => (false, [])
  | some _ => select_task_inner s.findInContainer (task_locators task_name)

/-! ## Numeric field setters (robot_commands.py lines 213-332) -/

/-- Environment oracle for one setter call: whether the structurally-addressed
editable field resolved within its 15s wait, whether `element.click()` ran
without raising, and whether the `ActionChains` key sequence (Ctrl+A, the
digits, Enter) performed without raising. -/
structure FieldOutcome where
  found : Bool
  clickOk : Bool
  keysOk : Bool
deriving DecidableEq, Repr

/-- Externally visible interactions of a setter call, in order.  `typeValue v`
stands for the whole committed key sequence: select-all, the decimal digits of
`v`, then Enter. -/
inductive FieldEvent where
  | waitField (xpath : String)
  | clickField
  | typeValue (v : Int)
deriving DecidableEq, Repr

/-- XPath of the speed editable field (line 223). -/
def speed_input_xpath : String :=
  "/html/body/div[2]/section/section/section/one-timeline/div[3]/div/one-container/div/one-timeline-skill/div/one-context-menu/div/div[3]/div[4]/div/step/linear-slider/step/div/div[4]/div[1]"

/-- XPath of the force input field (line 266). -/
def force_input_xpath : String :=
  "/html/body/div[2]/section/section/section/one-timeline/div[3]/div/one-container/div/one-timeline-skill/div/one-context-menu/div/div[3]/div[7]/div/step/linear-slider/step/div/div[4]"

/-- XPath of the load input field (line 303). -/
def load_input_xpath : String :=
  "/html/body/div[2]/section/section/section/one-timeline/div[3]/div/one-container/div/one-timeline-skill/div/one-context-menu/div/div[3]/div[10]/div/step/linear-slider/step/div/div[4]"

/-- Embedding of `set_speed_value` (lines 213-258): reject `speed` outside
`[10, 100]` before touching the UI; otherwise wait for the field, click it,
send the key sequence; every raised exception is caught and turned into
`False`. -/
def set_speed_value (o : FieldOutcome) (speed : Int) : Bool × List FieldEvent :=
  if ¬(10 ≤ speed ∧ speed ≤ 100) then (false, [])
  else if o.found = false then (false, [FieldEvent.waitField speed_input_xpath])
  else if o.clickOk = false then
    (false, [FieldEvent.waitField speed_input_xpath, FieldEvent.clickField])
  else if o.keysOk = false then
    (false, [FieldEvent.waitField speed_input_xpath, FieldEvent.clickField,
             FieldEvent.typeValue speed])
  else
    (true, [FieldEvent.waitField speed_input_xpath, FieldEvent.clickField,
            FieldEvent.typeValue speed])

/-- Embedding of `set_force_value` (lines 260-295): no range check of its own;
wait for the field, click, type; exceptions become `False`. -/
def set_force_value (o : FieldOutcome) (force : Int) : Bool × List FieldEvent :=
  if o.found = false then (false, [FieldEvent.waitField force_input_xpath])
  else if o.clickOk = false then
    (false, [FieldEvent.waitField force_input_xpath, FieldEvent.clickField])
  else if o.keysOk = false then
    (false, [FieldEvent.waitField force_input_xpath, FieldEvent.clickField,
             FieldEvent.typeValue force])
  else
    (true, [FieldEvent.waitField force_input_xpath, FieldEvent.clickField,
            FieldEvent.typeValue force])

/-- Embedding of `set_load_value` (lines 297-332): same shape as the force
setter, again with no range check of its own. -/
def set_load_value (o : FieldOutcome) (load : Int) : Bool × List FieldEvent :=
  if o.found = false then (false, [FieldEvent.waitField load_input_xpath])
  else if o.clickOk = false then
    (false, [FieldEvent.waitField load_input_xpath, FieldEvent.clickField])
  else if o.keysOk = false then
    (false, [FieldEvent.waitField load_input_xpath, FieldEvent.clickField,
             FieldEvent.typeValue load])
  else
    (true, [FieldEvent.waitField load_input_xpath, FieldEvent.clickField,
            FieldEvent.typeValue load])

/-! ## Completion poll (`wait_for_task_completion`, lines 334-371) -/

/-- Observable state of the execution button in one polling iteration:
`classAttr` is `get_attribute("class")` (`none` models a null attribute, which
the code replaces by `""`), `btnText` is the visible text. -/
structure BtnState where
  classAttr : Option String
  btnText : String
deriving DecidableEq, Repr

/-- The two fallback locators for the execution button used inside the poll
(lines 346-349). -/
def exec_button_locators : List Locator :=
  [⟨"css selector",
     "body > div:nth-child(2) > section > one-sidebar > div.sidebar-body > div > div.fixed-sections > footer > section > div > div"⟩,
   ⟨"xpath", "/html/body/div[2]/section/one-sidebar/div[1]/div/div[2]/footer/section/div/div"⟩]

/-- Per-iteration environment of the poll: whether a node containing `Ready`
is present (a failed `find_element` raises and is swallowed by the inner
`except`), and what each button locator resolves to in that iteration. -/
structure PollWorld where
  readyPresent : Nat → Bool
  findBtn : Nat → Locator → Option BtnState

/-- The button-state test of lines 353-357: the class attribute (with `None`
replaced by `""`) must not contain `stop`, and the lowercased visible text
must not contain `stop`. -/
def buttonDone (b : BtnState) : Bool :=
  !(strContains (b.classAttr.getD "") "stop") && !(strContains (strLower b.btnText) "stop")

/-- One polling iteration body (lines 341-362): requires the `Ready` text, a
resolved execution button, and a non-`stop` button state. -/
def pollSuccess (w : PollWorld) (i : Nat) : Bool :=
  w.readyPresent i &&
    (match try_multiple_locators (w.findBtn i) exec_button_locators with
     | some b => buttonDone b
     | none => false)

/-- The bounded loop of line 340 (`for i in range(timeout * 2)`, one 0.5s
sleep per iteration): returns the index of the first successful iteration, or
`none` when the budget is exhausted. -/
def wait_scan (w : PollWorld) : Nat → Nat → Option Nat
  | 0, _ => none
  | k + 1, i => if pollSuccess w i then some i else wait_scan w k (i + 1)

/-- Embedding of `wait_for_task_completion` (lines 334-371): `timeout * 2`
iterations checked every 0.5 seconds, default timeout 30s; `True` exactly when
some iteration succeeds within the budget. -/
def wait_for_task_completion (w : PollWorld) (timeout : Nat := 30) : Bool :=
  (wait_scan w (timeout * 2) 0).isSome

/-! ## Element waits (`wait_for_element` lines 23-31, `wait_for_ready` lines 116-129) -/

/-- Outcome of a `WebDriverWait(...).until(...)` call: the element appeared
within the bound, or the wait raised its timeout exception. -/
inductive WaitOutcome where
  | found (e : Element)
  | timedOut
deriving DecidableEq, Repr

/-- Python truthiness of a WebDriver element object: such objects define
neither `__bool__` nor `__len__`, so `if element:` is always true. -/
def elementTruthy (_ : Element) : Bool := true

/-- Embedding of `wait_for_element` (lines 23-31): the bare `except` converts
any failure into `None`. -/
def wait_for_element (o : WaitOutcome) : Option Element :=
  match o with
  | WaitOutcome.found e => some e
  | WaitOutcome.timedOut => none

/-- Embedding of `wait_for_ready` (lines 116-129): on success the element is
tested for truthiness (`if ready_element:`) and `True` is returned; the
structural fall-through when that test fails returns Python `None`, modelled
as `none`; the caught timeout returns `False`. -/
def wait_for_ready (o : WaitOutcome) : Option Bool :=
  match o with
  | WaitOutcome.found e => if elementTruthy e then some true else none
  | WaitOutcome.timedOut => some false

/-! ## High-level composite operations (lines 415-529)

The composites are fixed scripts over the sub-operations above; each
sub-operation is a method returning a boolean, abstracted here by its result
in the `OpSession` oracle (indexed by call number where a sub-operation is
invoked more than once).  The trace lists the sub-operations invoked, in
order. -/

/-- One sub-operation invocation, as recorded in a composite's trace. -/
inductive SubStep where
  | waitCompletion (timeout : Nat)
  | selectTask (name : String)
  | clickExecution
  | clickConfirm
  | clickTaskIcon
  | clickContinue
  | setSpeed (v : Int)
  | setForce (v : Int)
  | setLoad (v : Int)
deriving DecidableEq, Repr

/-- Whether a recorded step is a `wait_for_task_completion` call. -/
def SubStep.isWaitStep : SubStep → Bool
  | SubStep.waitCompletion _ => true
  | _ => false

/-- Results of the sub-operation calls a composite makes.  `waitCompletionR`
and `clickContinueR` are indexed by call number within the composite. -/
structure OpSession where
  waitCompletionR : Nat → Bool
  selectTaskR : String → Bool
  clickExecutionR : Bool
  clickConfirmR : Bool
  clickTaskIconR : Bool
  clickContinueR : Nat → Bool
  setSpeedR : Int → Bool
  setForceR : Int → Bool
  setLoadR : Int → Bool

/-- The full step script of `gripper_open` (lines 487-505). -/
def gripperOpenScript : List SubStep :=
  [SubStep.selectTask "Gripper_open", SubStep.clickExecution, SubStep.clickConfirm,
   SubStep.waitCompletion 30]

/-- Embedding of `gripper_open` (lines 487-505): select the task, click the
execution button, click confirm, poll for completion; abort with `False` at
the first failing step.  Note: there is no initial best-effort wait in this
function. -/
def gripper_open (s : OpSession) : Bool × List SubStep :=
  if s.selectTaskR "Gripper_open" = false then (false, gripperOpenScript.take 1)
  else if s.clickExecutionR = false then (false, gripperOpenScript.take 2)
  else if s.clickConfirmR = false then (false, gripperOpenScript.take 3)
  else if s.waitCompletionR 0 = false then (false, gripperOpenScript.take 4)
  else (true, gripperOpenScript)

/-- The full step script of `gripper_close` (lines 507-529). -/
def gripperCloseScript : List SubStep :=
  [SubStep.waitCompletion 10, SubStep.selectTask "Gripper_close", SubStep.clickExecution,
   SubStep.clickConfirm, SubStep.waitCompletion 30]

/-- Embedding of `gripper_close` (lines 507-529): a best-effort
`wait_for_task_completion(timeout=10)` whose result only triggers a warning,
then select, execute, confirm, and a checked completion poll. -/
def gripper_close (s : OpSession) : Bool × List SubStep :=
  if s.selectTaskR "Gripper_close" = false then (false, gripperCloseScript.take 2)
  else if s.clickExecutionR = false then (false, gripperCloseScript.take 3)
  else if s.clickConfirmR = false then (false, gripperCloseScript.take 4)
  else if s.waitCompletionR 1 = false then (false, gripperCloseScript.take 5)
  else (true, gripperCloseScript)

/-- The full step script of `configure_gripper_close` (lines 430-480). -/
def closeConfigScript (speed force load : Int) : List SubStep :=
  [SubStep.waitCompletion 10, SubStep.selectTask "Gripper_close", SubStep.clickTaskIcon,
   SubStep.clickContinue, SubStep.setSpeed speed, SubStep.clickContinue,
   SubStep.setForce force, SubStep.clickContinue, SubStep.setLoad load,
   SubStep.clickContinue]

/-- Embedding of `configure_gripper_close` (lines 415-484): validate the
three ranges up front (lines 419-428), returning `False` with no UI
interaction if any fails; then a best-effort wait (result ignored), select,
open the dialog, and advance through the four tabs setting each field, with
abort-on-first-failure throughout. -/
def configure_gripper_close (s : OpSession) (speed force load : Int) :
    Bool × List SubStep :=
  if ¬(10 ≤ speed ∧ speed ≤ 100) then (false, [])
  else if ¬(20 ≤ force ∧ force ≤ 100) then (false, [])
  else if ¬(10 ≤ load ∧ load ≤ 1000) then (false, [])
  else if s.selectTaskR "Gripper_close" = false then
    (false, (closeConfigScript speed force load).take 2)
  else if s.clickTaskIconR = false then (false, (closeConfigScript speed force load).take 3)
  else if s.clickContinueR 0 = false then (false, (closeConfigScript speed force load).take 4)
  else if s.setSpeedR speed = false then (false, (closeConfigScript speed force load).take 5)
  else if s.clickContinueR 1 = false then (false, (closeConfigScript speed force load).take 6)
  else if s.setForceR force = false then (false, (closeConfigScript speed force load).take 7)
  else if s.clickContinueR 2 = false then (false, (closeConfigScript speed force load).take 8)
  else if s.setLoadR load = false then (false, (closeConfigScript speed force load).take 9)
  else if s.clickContinueR 3 = false then (false, (closeConfigScript speed force load).take 10)
  else (true, closeConfigScript speed force load)

/-! ## Network manager (network_manager.py) -/

/-- Outcome of one `subprocess.run` invocation: it completed with an exit
code and captured stdout, it raised `TimeoutExpired`, or it raised a
`SubprocessError` (both caught by the code). -/
inductive RunResult where
  | completed (exitCode : Int) (stdout : String)
  | timedOut
  | subprocessError
deriving DecidableEq, Repr

/-- The two OS commands the configure path can issue. -/
inductive NetCmd where
  | showCmd
  | addCmd
deriving DecidableEq, Repr

/-- Environment of the network manager: the configured local address string
and the outcomes the OS would give to the inspection command (`ip addr show`)
and to the privileged add command (`sudo ip addr add`). -/
structure NetWorld where
  localIp : String
  showResult : RunResult
  addResult : RunResult

/-- Embedding of `check_network_configured` (lines 15-31): true exactly when
the inspection command exits 0 and its stdout contains the local address;
timeouts and subprocess errors are caught and yield `False`. -/
def check_network_configured (localIp : String) (r : RunResult) : Bool :=
  match r with
  | RunResult.completed code out => if code = 0 then strContains out localIp else false
  | RunResult.timedOut => false
  | RunResult.subprocessError => false

/-- Embedding of `configure_network` (lines 33-63): if the check reports the
address already present, return `True` immediately (only the inspection
command ran); otherwise issue the privileged add command, succeeding exactly
on exit code 0, with timeouts and any other error caught as `False`.  The
trace records the commands issued, in order. -/
def configure_network (w : NetWorld) : Bool × List NetCmd :=
  if check_network_configured w.localIp w.showResult then (true, [NetCmd.showCmd])
  else
    match w.addResult with
    | RunResult.completed code _ =>
      (if code = 0 then true else false, [NetCmd.showCmd, NetCmd.addCmd])
    | RunResult.timedOut => (false, [NetCmd.showCmd, NetCmd.addCmd])
    | RunResult.subprocessError => (false, [NetCmd.showCmd, NetCmd.addCmd])

/-! ## Concrete environments used to instantiate the theorems -/

/-- Sub-operation oracle in which every sub-operation succeeds. -/
def goodOp : OpSession :=
  ⟨fun _ => true, fun _ => true, true, true, true, fun _ => true,
   fun _ => true, fun _ => true, fun _ => true⟩

/-- Field outcome in which the field resolves and both interactions succeed. -/
def goodField : FieldOutcome := ⟨true, true, true⟩

/-- The element the stub session exposes under the contains-text locator. -/
def c1Elem : Element := ⟨7⟩

/-- Stub session where the task container resolves and, inside it, only the
second (contains-text) locator for `Gripper_open` matches. -/
def secondOnlySession : TaskSession :=
  { findPage := fun _ => some ⟨1⟩,
    findInContainer := fun l =>
      if l = contains_task_locator "Gripper_open" then some c1Elem else none }

/-- Poll world where the `Ready` text is present in every iteration but the
execution button perpetually reports a `stop` state. -/
def stopWorld : PollWorld :=
  { readyPresent := fun _ => true,
    findBtn := fun _ _ => some ⟨some "circle stop-active", "STOP"⟩ }

/-- Poll world where the `Ready` text is present in every iteration but no
execution-button locator ever resolves. -/
def noButtonWorld : PollWorld :=
  { readyPresent := fun _ => true,
    findBtn := fun _ _ => none }

/-- Network world in which the interface already carries the expected
address (the inspection command exits 0 and prints it). -/
def configuredWorld : NetWorld :=
  ⟨"172.16.0.1", RunResult.completed 0 "inet 172.16.0.1/24 scope global", RunResult.timedOut⟩

/-! ## Helper lemmas -/

/-- Fallback resolution equals binding the first locator whose lookup
succeeds: the list is scanned left to right and the first hit wins. -/
theorem try_multiple_locators_eq_find {ε : Type} (find : Locator → Option ε) :
    ∀ locs : List Locator,
      try_multiple_locators find locs
        = ((locs.find? fun l => (find l).isSome).bind find)
  | [] => rfl
  | l :: ls => by
    cases h : find l with
    | some e => simp [try_multiple_locators, h, List.find?]
    | none => simp [try_multiple_locators, h, List.find?,
        try_multiple_locators_eq_find find ls]

/-- If every locator in the list fails to resolve, fallback resolution
reports not-found. -/
theorem try_multiple_locators_none {ε : Type} (find : Locator → Option ε) :
    ∀ locs : List Locator, (∀ l ∈ locs, find l = none) →
      try_multiple_locators find locs = none
  | [], _ => rfl
  | l :: ls, h => by
    have h1 : find l = none := h l (List.mem_cons_self l ls)
    simp only [try_multiple_locators, h1]
    exact try_multiple_locators_none find ls fun x hx => h x (List.mem_cons_of_mem l hx)

/-- The bounded scan finds an index exactly when some iteration within the
remaining budget succeeds. -/
theorem wait_scan_isSome_iff (w : PollWorld) :
    ∀ k i, (wait_scan w k i).isSome = true
      ↔ ∃ j, i ≤ j ∧ j < i + k ∧ pollSuccess w j = true := by
  intro k
  induction k with
  | zero =>
    intro i
    simp only [wait_scan, Option.isSome_none, Bool.false_eq_true, false_iff]
    rintro ⟨j, h1, h2, _⟩
    omega
  | succ n ih =>
    intro i
    rw [wait_scan]
    cases hb : pollSuccess w i with
    | true =>
      simp only [hb, if_true, Option.isSome_some, true_iff]
      exact ⟨i, Nat.le_refl i, by omega, hb⟩
    | false =>
      simp only [hb, Bool.false_eq_true, if_false]
      rw [ih (i + 1)]
      constructor
      · rintro ⟨j, h1, h2, h3⟩
        exact ⟨j, by omega, by omega, h3⟩
      · rintro ⟨j, h1, h2, h3⟩
        have hne : j ≠ i := by
          intro e
          rw [e, hb] at h3
          exact Bool.false_ne_true h3
        exact ⟨j, by omega, by omega, h3⟩

/-- When the bounded scan returns an index, that iteration is inside the
budget, it succeeded, and every earlier iteration in the scanned range
failed: the loop returns in the first successful iteration. -/
theorem wait_scan_eq_some (w : PollWorld) :
    ∀ k i j, wait_scan w k i = some j →
      i ≤ j ∧ j < i + k ∧ pollSuccess w j = true ∧
        ∀ m, i ≤ m → m < j → pollSuccess w m = false := by
  intro k
  induction k with
  | zero =>
    intro i j h
    simp [wait_scan] at h
  | succ n ih =>
    intro i j h
    rw [wait_scan] at h
    cases hb : pollSuccess w i with
    | true =>
      rw [hb] at h
      simp only [if_true, Option.some.injEq] at h
      subst h
      exact ⟨Nat.le_refl _, by omega, hb, fun m h1 h2 => by omega⟩
    | false =>
      rw [hb] at h
      simp only [Bool.false_eq_true, if_false] at h
      obtain ⟨h1, h2, h3, h4⟩ := ih (i + 1) j h
      refine ⟨by omega, by omega, h3, ?_⟩
      intro m hm1 hm2
      rcases Nat.eq_or_lt_of_le hm1 with he | hlt
      · rw [← he]
        exact hb
      · exact h4 m (by omega) hm2

/-! ## Claim theorems -/

/-- C1: fallback resolution attempts the locators strictly in listed order
and returns the first element that resolves, skipping the rest; when only the
second locator matches, the second locator's element is returned.  In
`select_task_from_list` the inner loop tries the exact-text locator before the
contains-text locator and returns success (recording only the locators it
attempted) on the first locator whose element is found and clicked. -/
theorem C1_locator_fallback_first_match :
    (∀ (find : Locator → Option Element) (locs : List Locator),
        try_multiple_locators find locs
          = ((locs.find? fun l => (find l).isSome).bind find))
  ∧ (∀ (find : Locator → Option Element) (l1 l2 : Locator) (e : Element),
        find l1 = none → find l2 = some e →
        try_multiple_locators find [l1, l2] = some e)
  ∧ (∀ name : String,
        task_locators name = [exact_task_locator name, contains_task_locator name])
  ∧ (∀ (s : TaskSession) (name : String),
        (try_multiple_locators s.findPage task_container_locators).isSome = true →
        (s.findInContainer (exact_task_locator name)).isSome = true →
        select_task_from_list s name = (true, [exact_task_locator name]))
  ∧ (∀ (s : TaskSession) (name : String),
        (try_multiple_locators s.findPage task_container_locators).isSome = true →
        s.findInContainer (exact_task_locator name) = none →
        (s.findInContainer (contains_task_locator name)).isSome = true →
        select_task_from_list s name
          = (true, [exact_task_locator name, contains_task_locator name])) := by
  refine ⟨?_, ?_, fun _ => rfl, ?_, ?_⟩
  · intro find locs
    exact try_multiple_locators_eq_find find locs
  · intro find l1 l2 e h1 h2
    simp [try_multiple_locators, h1, h2]
  · intro s name hc hf
    obtain ⟨c, hcv⟩ := Option.isSome_iff_exists.mp hc
    obtain ⟨e, hev⟩ := Option.isSome_iff_exists.mp hf
    simp [select_task_from_list, hcv, task_locators, select_task_inner, hev]
  · intro s name hc h1 h2
    obtain ⟨c, hcv⟩ := Option.isSome_iff_exists.mp hc
    obtain ⟨e, hev⟩ := Option.isSome_iff_exists.mp h2
    simp [select_task_from_list, hcv, task_locators, select_task_inner, h1, hev]

/-- Witness for C1: in a stub session where only the second (contains-text)
locator matches, selection succeeds after attempting both locators in order. -/
theorem C1_witness :
    select_task_from_list secondOnlySession "Gripper_open"
      = (true, [exact_task_locator "Gripper_open", contains_task_locator "Gripper_open"]) :=
  C1_locator_fallback_first_match.2.2.2.2 secondOnlySession "Gripper_open"
    (by decide) (by decide) (by decide)

/-- C2: validation is inclusive-range: `set_speed_value` rejects 9 and 101
with no UI interaction and accepts 10 and 100; `configure_gripper_close`
rejects force 19 and 101 and load 9 and 1001 with no UI interaction, and
accepts the boundary values force 20 and 100 and load 10 and 1000. -/
theorem C2_inclusive_range_validation :
    (∀ o : FieldOutcome,
        set_speed_value o 9 = (false, []) ∧ set_speed_value o 101 = (false, []))
  ∧ (set_speed_value goodField 10).1 = true
  ∧ (set_speed_value goodField 100).1 = true
  ∧ (∀ (s : OpSession) (speed load : Int),
        configure_gripper_close s speed 19 load = (false, [])
      ∧ configure_gripper_close s speed 101 load = (false, []))
  ∧ (∀ (s : OpSession) (speed force : Int),
        configure_gripper_close s speed force 9 = (false, [])
      ∧ configure_gripper_close s speed force 1001 = (false, []))
  ∧ configure_gripper_close goodOp 10 20 10 = (true, closeConfigScript 10 20 10)
  ∧ configure_gripper_close goodOp 100 100 1000 = (true, closeConfigScript 100 100 1000) := by
  refine ⟨?_, by decide, by decide, ?_, ?_, by rfl, by rfl⟩
  · intro o
    constructor <;>
      · unfold set_speed_value
        rw [if_pos (by decide)]
  · intro s speed load
    constructor <;>
      · unfold configure_gripper_close
        by_cases hs : 10 ≤ speed ∧ speed ≤ 100
        · rw [if_neg (not_not_intro hs), if_pos (by decide)]
        · rw [if_pos hs]
  · intro s speed force
    constructor <;>
      · unfold configure_gripper_close
        by_cases hs : 10 ≤ speed ∧ speed ≤ 100
        · by_cases hf : 20 ≤ force ∧ force ≤ 100
          · rw [if_neg (not_not_intro hs), if_neg (not_not_intro hf), if_pos (by decide)]
          · rw [if_neg (not_not_intro hs), if_pos hf]
        · rw [if_pos hs]

/-- C3: whenever any of speed, force or load is out of range,
`configure_gripper_close` returns `False` with an empty trace: no completion
wait, no task selection, no UI interaction of any kind is attempted. -/
theorem C3_out_of_range_fails_before_ui (s : OpSession) (speed force load : Int)
    (h : ¬(10 ≤ speed ∧ speed ≤ 100) ∨ ¬(20 ≤ force ∧ force ≤ 100)
          ∨ ¬(10 ≤ load ∧ load ≤ 1000)) :
    configure_gripper_close s speed force load = (false, []) := by
  unfold configure_gripper_close
  rcases h with h | h | h
  · rw [if_pos h]
  · by_cases hs : 10 ≤ speed ∧ speed ≤ 100
    · rw [if_neg (not_not_intro hs), if_pos h]
    · rw [if_pos hs]
  · by_cases hs : 10 ≤ speed ∧ speed ≤ 100
    · by_cases hf : 20 ≤ force ∧ force ≤ 100
      · rw [if_neg (not_not_intro hs), if_neg (not_not_intro hf), if_pos h]
      · rw [if_neg (not_not_intro hs), if_pos hf]
    · rw [if_pos hs]

/-- Witness for C3 at force = 150 with an all-success environment: the call
still fails with an empty trace. -/
theorem C3_witness : configure_gripper_close goodOp 50 150 400 = (false, []) :=
  C3_out_of_range_fails_before_ui goodOp 50 150 400 (Or.inr (Or.inl (by decide)))

/-- C4: the completion poll runs `timeout * 2` iterations spaced 0.5s apart
(default timeout 30s); it returns `True` exactly when some iteration within
the budget succeeds, the index it stops at is the first successful iteration,
and it returns `False` when no iteration satisfies the condition — in
particular whenever the resolved button's lowercased text contains `stop`,
that iteration cannot succeed. -/
theorem C4_completion_poll_first_success (w : PollWorld) (t : Nat) :
    (wait_for_task_completion w t = true ↔ ∃ i, i < t * 2 ∧ pollSuccess w i = true)
  ∧ (∀ i, wait_scan w (t * 2) 0 = some i →
        i < t * 2 ∧ pollSuccess w i = true ∧ ∀ j, j < i → pollSuccess w j = false)
  ∧ ((∀ i, i < t * 2 → pollSuccess w i = false) → wait_for_task_completion w t = false)
  ∧ (∀ i b, try_multiple_locators (w.findBtn i) exec_button_locators = some b →
        strContains (strLower b.btnText) "stop" = true → pollSuccess w i = false) := by
  have hiff := wait_scan_isSome_iff w (t * 2) 0
  refine ⟨?_, ?_, ?_, ?_⟩
  · constructor
    · intro h
      obtain ⟨j, _, h2, h3⟩ := hiff.mp h
      exact ⟨j, by omega, h3⟩
    · rintro ⟨i, h1, h2⟩
      exact hiff.mpr ⟨i, by omega, by omega, h2⟩
  · intro i hi
    obtain ⟨h1, h2, h3, h4⟩ := wait_scan_eq_some w (t * 2) 0 i hi
    exact ⟨by omega, h3, fun j hj => h4 j (Nat.zero_le j) hj⟩
  · intro h
    cases hres : wait_for_task_completion w t with
    | false => rfl
    | true =>
      obtain ⟨j, _, h2, h3⟩ := hiff.mp hres
      rw [h j (by omega)] at h3
      exact absurd h3 (by simp)
  · intro i b hb hstop
    unfold pollSuccess
    rw [hb]
    simp [buttonDone, hstop]

/-- Witness for C4: with the ready text present in every iteration but the
button perpetually reporting a stop state, the poll times out as `False`. -/
theorem C4_witness : wait_for_task_completion stopWorld 30 = false :=
  (C4_completion_poll_first_success stopWorld 30).2.2.1 (fun _ _ => rfl)

/-- C5 counterexample: in an all-success environment, `gripper_open` runs
select → execute → confirm → completion poll; its first recorded step is the
task selection and is not a `wait_for_task_completion` call, so the claimed
initial best-effort wait does not exist in `gripper_open`. -/
theorem C5_counterexample :
    gripper_open goodOp = (true, gripperOpenScript)
  ∧ (gripper_open goodOp).2.head? = some (SubStep.selectTask "Gripper_open")
  ∧ ((gripper_open goodOp).2.head?.map SubStep.isWaitStep) = some false :=
  ⟨rfl, rfl, rfl⟩

/-- C5 (amended): `gripper_open` executes exactly the fixed script
select task → click execution trigger → click confirm → poll for completion
→ success, aborting on the first failing step; it performs no initial
best-effort wait (its first step is always the task selection and its only
wait step is the final checked poll), whereas `gripper_close` does begin with
the best-effort `wait_for_task_completion(timeout=10)`. -/
theorem C5_gripper_open_script (s : OpSession) :
    ((gripper_open s).1
        = (s.selectTaskR "Gripper_open" && s.clickExecutionR && s.clickConfirmR
            && s.waitCompletionR 0))
  ∧ (gripper_open s).2.isPrefixOf gripperOpenScript = true
  ∧ ((gripper_open s).1 = true → gripper_open s = (true, gripperOpenScript))
  ∧ (gripper_open s).2.head? = some (SubStep.selectTask "Gripper_open")
  ∧ (∀ st ∈ (gripper_open s).2, st.isWaitStep = true → st = SubStep.waitCompletion 30)
  ∧ (gripper_close s).2.head? = some (SubStep.waitCompletion 10) := by
  refine ⟨?_, ?_, ?_, ?_, ?_, ?_⟩
  · cases h1 : s.selectTaskR "Gripper_open" <;>
      cases h2 : s.clickExecutionR <;>
        cases h3 : s.clickConfirmR <;>
          cases h4 : s.waitCompletionR 0 <;>
            simp [gripper_open, h1, h2, h3, h4]
  · cases h1 : s.selectTaskR "Gripper_open" <;>
      cases h2 : s.clickExecutionR <;>
        cases h3 : s.clickConfirmR <;>
          cases h4 : s.waitCompletionR 0 <;>
            simp [gripper_open, h1, h2, h3, h4] <;> decide
  · cases h1 : s.selectTaskR "Gripper_open" <;>
      cases h2 : s.clickExecutionR <;>
        cases h3 : s.clickConfirmR <;>
          cases h4 : s.waitCompletionR 0 <;>
            simp [gripper_open, h1, h2, h3, h4]
  · cases h1 : s.selectTaskR "Gripper_open" <;>
      cases h2 : s.clickExecutionR <;>
        cases h3 : s.clickConfirmR <;>
          cases h4 : s.waitCompletionR 0 <;>
            simp [gripper_open, h1, h2, h3, h4, gripperOpenScript]
  · cases h1 : s.selectTaskR "Gripper_open" <;>
      cases h2 : s.clickExecutionR <;>
        cases h3 : s.clickConfirmR <;>
          cases h4 : s.waitCompletionR 0 <;>
            (simp [gripper_open, h1, h2, h3, h4, gripperOpenScript]; decide)
  · cases h1 : s.selectTaskR "Gripper_close" <;>
      cases h2 : s.clickExecutionR <;>
        cases h3 : s.clickConfirmR <;>
          cases h4 : s.waitCompletionR 1 <;>
            simp [gripper_close, h1, h2, h3, h4, gripperCloseScript]

/-- Witness for C5 (amended) in the all-success environment: the whole script
runs and the operation succeeds. -/
theorem C5_witness : gripper_open goodOp = (true, gripperOpenScript) :=
  (C5_gripper_open_script goodOp).2.2.1 rfl

/-- C6: the network-configured check is true exactly when the inspection
command exits 0 and its stdout contains the expected local address; a
non-zero exit, a timeout, or a subprocess error each yield `False` (the
exceptions are caught, never propagated). -/
theorem C6_network_check_iff :
    (∀ (ip out : String) (c : Int),
        check_network_configured ip (RunResult.completed c out) = true
          ↔ (c = 0 ∧ strContains out ip = true))
  ∧ (∀ ip, check_network_configured ip RunResult.timedOut = false)
  ∧ (∀ ip, check_network_configured ip RunResult.subprocessError = false) := by
  refine ⟨?_, fun _ => rfl, fun _ => rfl⟩
  intro ip out c
  by_cases hc : c = 0 <;> simp [check_network_configured, hc]

/-- Witness for C6: exit code 0 with the address present in stdout yields
`True`. -/
theorem C6_witness :
    check_network_configured "172.16.0.1"
      (RunResult.completed 0 "inet 172.16.0.1/24 scope global") = true :=
  (C6_network_check_iff.1 "172.16.0.1" "inet 172.16.0.1/24 scope global" 0).mpr
    ⟨rfl, by decide⟩

/-- C7: when the check reports the address already configured,
`configure_network` returns `True` immediately having issued only the
inspection command — the privileged add command is never in its trace; since
a successful no-op call leaves the configured state unchanged, a second call
in the same state behaves identically. -/
theorem C7_configure_idempotent (w : NetWorld)
    (h : check_network_configured w.localIp w.showResult = true) :
    configure_network w = (true, [NetCmd.showCmd])
  ∧ NetCmd.addCmd ∉ (configure_network w).2 := by
  have h1 : configure_network w = (true, [NetCmd.showCmd]) := by
    unfold configure_network
    rw [if_pos h]
  refine ⟨h1, ?_⟩
  rw [h1]
  decide

/-- Witness for C7 at a world whose interface already carries the address. -/
theorem C7_witness :
    configure_network configuredWorld = (true, [NetCmd.showCmd])
  ∧ NetCmd.addCmd ∉ (configure_network configuredWorld).2 :=
  C7_configure_idempotent configuredWorld (by decide)

/-- C8: every modelled operation outcome is reported as a boolean result
rather than a propagated exception: `wait_for_ready` returns a boolean on
every executed path (WebDriver elements are always truthy, so the structural
fall-through branch is dead) — `True` when the `Ready` text appears within
its 30s wait and `False` on timeout; `wait_for_element` converts any wait
failure into `None`; and the network operations convert command timeouts and
subprocess errors into `False` at both the check and configure levels. -/
theorem C8_boolean_contract :
    (∀ o, (wait_for_ready o).isSome = true)
  ∧ (∀ e, wait_for_ready (WaitOutcome.found e) = some true)
  ∧ wait_for_ready WaitOutcome.timedOut = some false
  ∧ (∀ e, wait_for_element (WaitOutcome.found e) = some e)
  ∧ wait_for_element WaitOutcome.timedOut = none
  ∧ (∀ ip, check_network_configured ip RunResult.timedOut = false
        ∧ check_network_configured ip RunResult.subprocessError = false)
  ∧ (∀ ip, configure_network ⟨ip, RunResult.timedOut, RunResult.timedOut⟩
        = (false, [NetCmd.showCmd, NetCmd.addCmd]))
  ∧ (∀ ip, configure_network ⟨ip, RunResult.subprocessError, RunResult.subprocessError⟩
        = (false, [NetCmd.showCmd, NetCmd.addCmd])) := by
  refine ⟨?_, fun _ => rfl, rfl, fun _ => rfl, rfl, fun _ => ⟨rfl, rfl⟩,
    fun _ => rfl, fun _ => rfl⟩
  intro o
  cases o with
  | found e => rfl
  | timedOut => rfl

/-- C9: `set_force_value` and `set_load_value` validate nothing: for every
integer argument, including out-of-range ones, the first interaction is the
wait for the field and the result is `True` exactly when the field resolves
and both the click and the key sequence succeed; concretely, force 150 and
load 5 are typed into the UI and reported as success.  Only `set_speed_value`
checks its own range. -/
theorem C9_force_load_no_validation :
    (∀ (o : FieldOutcome) (force : Int),
        (set_force_value o force).1 = (o.found && o.clickOk && o.keysOk)
      ∧ (set_force_value o force).2.head? = some (FieldEvent.waitField force_input_xpath))
  ∧ (∀ (o : FieldOutcome) (load : Int),
        (set_load_value o load).1 = (o.found && o.clickOk && o.keysOk)
      ∧ (set_load_value o load).2.head? = some (FieldEvent.waitField load_input_xpath))
  ∧ set_force_value goodField 150
      = (true, [FieldEvent.waitField force_input_xpath, FieldEvent.clickField,
                FieldEvent.typeValue 150])
  ∧ set_load_value goodField 5
      = (true, [FieldEvent.waitField load_input_xpath, FieldEvent.clickField,
                FieldEvent.typeValue 5])
  ∧ (∀ o : FieldOutcome, set_speed_value o 150 = (false, [])) := by
  refine ⟨?_, ?_, rfl, rfl, ?_⟩
  · intro o force
    obtain ⟨f, c, k⟩ := o
    cases f <;> cases c <;> cases k <;> simp [set_force_value]
  · intro o load
    obtain ⟨f, c, k⟩ := o
    cases f <;> cases c <;> cases k <;> simp [set_load_value]
  · intro o
    unfold set_speed_value
    rw [if_pos (show ¬((10:Int) ≤ 150 ∧ (150:Int) ≤ 100) by decide)]

/-- C10: the completion poll can only succeed in an iteration where the
execution button resolves through its locator list; if no locator in the
list ever resolves, the poll returns `False` at the timeout even when the
`Ready` text is present throughout. -/
theorem C10_unresolved_button_no_success (w : PollWorld) (t : Nat)
    (h : ∀ i l, l ∈ exec_button_locators → w.findBtn i l = none) :
    wait_for_task_completion w t = false := by
  have hps : ∀ i, pollSuccess w i = false := by
    intro i
    unfold pollSuccess
    rw [try_multiple_locators_none (w.findBtn i) exec_button_locators (h i)]
    simp
  cases hres : wait_for_task_completion w t with
  | false => rfl
  | true =>
    obtain ⟨j, _, _, h3⟩ := (wait_scan_isSome_iff w (t * 2) 0).mp hres
    rw [hps j] at h3
    exact absurd h3 (by simp)

/-- Witness for C10: ready text always present, button locators never
resolve, poll returns `False`. -/
theorem C10_witness : wait_for_task_completion noButtonWorld 30 = false :=
  C10_unresolved_button_no_success noButtonWorld 30 (fun _ _ _ => rfl)
